import Mathlib

/-!
# Backing-image proxy client (`pkg/client/proxy_backing_image.go`)

A shallow embedding of the six `ProxyClient` methods for SPDK backing images:
`SPDKBackingImageCreate`, `SPDKBackingImageDelete`, `SPDKBackingImageGet`,
`SPDKBackingImageList`, `SPDKBackingImageWatch` and `SPDKBackingImageBackupCreate`.

Every method is a function from its arguments to a pair: the value the Go method returns, and
the list of invocations it made on the backend service (`c.service`), oldest first.  A method
that returns before touching the service has the empty list there.
-/

namespace Longhorn

/-! ## Go values -/

/-- Go `map[string]string`, written as its entries in the order in which a `range` loop visits
them in the execution at hand.  The language leaves that order unspecified, so two lists that
are permutations of one another stand for the same mapping. -/
abbrev StringMap := List (String × String)

/-- Go `error` values that occur in the file: the error of the parameter validator, a
`fmt.Errorf` message, an `errors.Wrap` around a cause, a status reported by the remote service,
and the decoding failure of the `api` translator. -/
inductive Error where
  | parameter (missing : List String)
  | errorf (msg : String)
  | wrap (cause : Error) (msg : String)
  | status (code : Nat) (msg : String)
  | decode
deriving DecidableEq

/-- The function `errors.Wrap(err, msg)` of `github.com/pkg/errors`, for a non-nil `err`. -/
def errors.Wrap (err : Error) (msg : String) : Error := Error.wrap err msg

/-- The cause one layer below an error built by `errors.Wrap`; `none` for an unwrapped error. -/
def Error.Unwrap : Error → Option Error
  | Error.wrap cause _ => some cause
  | _ => none

/-- Go `context.Context`, reduced to whether it is cancelled and its timeout (a
`time.Duration`, in nanoseconds) when it has one. -/
structure Context where
  cancelled : Bool
  timeout : Option Nat
deriving DecidableEq

/-- The context `context.Background()`: never cancelled, no deadline. -/
def context.Background : Context := { cancelled := false, timeout := none }

/-- The context `context.WithTimeout(parent, d)`: inherits cancellation, and the earlier of the
two deadlines. -/
def context.WithTimeout (parent : Context) (d : Nat) : Context :=
  { cancelled := parent.cancelled
    timeout := some (match parent.timeout with
      | none => d
      | some p => min p d) }

/-- Go conversion `int32(n)` of an `int`: the low 32 bits, read as two's complement. -/
def int32 (n : Int) : Int := (n + 2147483648) % 4294967296 - 2147483648

/-- Go `fmt.Sprintf("%s=%s", k, v)`. -/
def sprintfKV (k v : String) : String := k ++ "=" ++ v

/-! ## Wire messages (`rpc`) -/

structure SPDKBackingImageCreateRequest where
  Name : String
  BackingImageUuid : String
  DiskUuid : String
  Size : Nat
  Checksum : String
  FromAddress : String
  SrcLvsUuid : String
deriving DecidableEq

structure SPDKBackingImageDeleteRequest where
  Name : String
  DiskUuid : String
deriving DecidableEq

structure SPDKBackingImageGetRequest where
  Name : String
  DiskUuid : String
deriving DecidableEq

structure SPDKBackingImageBackupCreateRequest where
  BackupName : String
  Name : String
  Uuid : String
  LvsUuid : String
  Checksum : String
  BackupTarget : String
  Labels : List String
  Credential : StringMap
  CompressionMethod : String
  ConcurrentLimit : Int
  Parameters : StringMap
deriving DecidableEq

/-- Modelled from the spec: the wire message `SPDKBackingImageResponse` is declared outside
`proxy_backing_image.go`; the spec gives it the fields of the creation request plus the
server-reported `state`. -/
structure SPDKBackingImageResponse where
  Name : String
  BackingImageUuid : String
  DiskUuid : String
  Size : Nat
  Checksum : String
  FromAddress : String
  SrcLvsUuid : String
  State : String
deriving DecidableEq

/-- Modelled from the spec: the wire listing `SPDKBackingImageListResponse`, a mapping from
name to `SPDKBackingImageResponse`, declared outside `proxy_backing_image.go`. -/
abbrev SPDKBackingImageListResponse := List (String × SPDKBackingImageResponse)

/-- The client side of the server stream that the `SPDKBackingImageWatch` call opens; the
file only hands it on, so it is kept as the identity of the opened stream. -/
structure SPDKBackingImageWatchClient where
  id : Nat
deriving DecidableEq

/-! ## Domain values (`api`) -/

/-- Modelled from the spec: the domain entity `api.BackingImage` is declared outside
`proxy_backing_image.go`; the spec gives it identity, content descriptor, provenance and `state`. -/
structure BackingImage where
  name : String
  backingImageUUID : String
  diskUUID : String
  checksum : String
  size : Nat
  fromAddress : String
  srcLvsUUID : String
  state : String
deriving DecidableEq

/-- Modelled from the spec: the field-by-field conversion of one wire `BackingImage` response
into the domain `BackingImage`, which the absent `api` translators share. -/
def api.toBackingImage (obj : SPDKBackingImageResponse) : BackingImage :=
  { name := obj.Name
    backingImageUUID := obj.BackingImageUuid
    diskUUID := obj.DiskUuid
    checksum := obj.Checksum
    size := obj.Size
    fromAddress := obj.FromAddress
    srcLvsUUID := obj.SrcLvsUuid
    state := obj.State }

/-- Modelled from the spec: `api.RPCToBackingImage` is defined outside `proxy_backing_image.go`.  It
converts a single wire response into the domain `BackingImage`, and fails with a decode error
on a malformed response, here the nil message. -/
def api.RPCToBackingImage (obj : Option SPDKBackingImageResponse) : Except Error BackingImage :=
  match obj with
  | none => Except.error Error.decode
  | some r => Except.ok (api.toBackingImage r)

/-- Modelled from the spec: `api.RPCToBackingImageList` is defined outside
`proxy_backing_image.go`.  It converts a wire listing response into a collection, a mapping
from name to `BackingImage`, entry by entry. -/
def api.RPCToBackingImageList (obj : SPDKBackingImageListResponse) :
    List (String × BackingImage) :=
  obj.map (fun kv => (kv.1, api.toBackingImage kv.2))

/-- Modelled from the spec: `api.BackingImageStream` is declared outside
`proxy_backing_image.go`; it is the handle that owns the opened server stream. -/
structure BackingImageStream where
  stream : SPDKBackingImageWatchClient
deriving DecidableEq

/-- Modelled from the spec: `api.NewBackingImageStream` is defined outside
`proxy_backing_image.go`; it wraps the opened server stream in the handle given to the caller. -/
def api.NewBackingImageStream (stream : SPDKBackingImageWatchClient) : BackingImageStream :=
  { stream := stream }

/-! ## The backend service and the proxy client -/

/-- The backend service behind `c.service`, as a test double sees it: for every remote
procedure, the answer to a call made under a context with a request. -/
structure ProxyEngineServiceClient where
  SPDKBackingImageCreate :
    Context → SPDKBackingImageCreateRequest → Except Error (Option SPDKBackingImageResponse)
  SPDKBackingImageDelete : Context → SPDKBackingImageDeleteRequest → Except Error Unit
  SPDKBackingImageGet :
    Context → SPDKBackingImageGetRequest → Except Error (Option SPDKBackingImageResponse)
  SPDKBackingImageList : Context → Except Error SPDKBackingImageListResponse
  SPDKBackingImageWatch : Context → Except Error SPDKBackingImageWatchClient
  SPDKBackingImageBackupCreate :
    Context → SPDKBackingImageBackupCreateRequest → Except Error Unit

/-- One invocation of the backend service: the procedure, the context and the request. -/
inductive Call where
  | create (ctx : Context) (req : SPDKBackingImageCreateRequest)
  | delete (ctx : Context) (req : SPDKBackingImageDeleteRequest)
  | get (ctx : Context) (req : SPDKBackingImageGetRequest)
  | list (ctx : Context)
  | watch (ctx : Context)
  | backupCreate (ctx : Context) (req : SPDKBackingImageBackupCreateRequest)
deriving DecidableEq

structure ProxyClient where
  service : ProxyEngineServiceClient

/-- Go `error` result of a call whose response carries no payload: `nil` is `none`. -/
def errorOf (r : Except Error Unit) : Option Error :=
  match r with
  | Except.error e => some e
  | Except.ok _ => none

/-- Modelled from the spec: `validateProxyMethodParameters` is defined outside
`proxy_backing_image.go`.  Given a mapping from field name to string value it succeeds
(`none`) when all values are non-empty, and otherwise fails with a validation error that names
every empty field. -/
def validateProxyMethodParameters (input : StringMap) : Option Error :=
  let missing := (input.filter (fun kv => decide (kv.2 = ""))).map Prod.fst
  if missing = [] then none else some (Error.parameter missing)

/-- The loop of lines 135-138: `labelSlice` starts empty and gets one `"k=v"` string appended
for every entry that `range labels` visits. -/
def labelSlice (labels : StringMap) : List String :=
  labels.foldl (fun acc kv => acc ++ [sprintfKV kv.1 kv.2]) []

/-! ## The methods

`GRPCServiceTimeout` stands for the constant `types.GRPCServiceTimeout`, declared outside
`proxy_backing_image.go`. -/

/-- Lines 16-50: validate the four required strings, reject size 0, then call the backend
under a fresh context with the service-call timeout and decode its response. -/
def SPDKBackingImageCreate (GRPCServiceTimeout : Nat) (c : ProxyClient)
    (name backingImageUUID diskUUID checksum fromAddress srcLvsUUID : String) (size : Nat) :
    Except Error BackingImage × List Call :=
  let input : StringMap :=
    [("name", name), ("backingImageUUID", backingImageUUID), ("checksum", checksum),
      ("diskUUID", diskUUID)]
  match validateProxyMethodParameters input with
  | some err => (Except.error (errors.Wrap err "failed to create backing image"), [])
  | none =>
    if size = 0 then
      (Except.error (Error.errorf "failed to create backing image, size should not be zero"), [])
    else
      let client := c.service
      let ctx := context.WithTimeout context.Background GRPCServiceTimeout
      let req : SPDKBackingImageCreateRequest :=
        { Name := name
          BackingImageUuid := backingImageUUID
          DiskUuid := diskUUID
          Size := size
          Checksum := checksum
          FromAddress := fromAddress
          SrcLvsUuid := srcLvsUUID }
      match client.SPDKBackingImageCreate ctx req with
      | Except.error err => (Except.error err, [Call.create ctx req])
      | Except.ok resp => (api.RPCToBackingImage resp, [Call.create ctx req])

/-- Lines 52-71: validate name and diskUUID, then call the backend and return its error. -/
def SPDKBackingImageDelete (GRPCServiceTimeout : Nat) (c : ProxyClient)
    (name diskUUID : String) : Option Error × List Call :=
  let input : StringMap := [("name", name), ("diskUUID", diskUUID)]
  match validateProxyMethodParameters input with
  | some err => (some (errors.Wrap err "failed to delete backing image"), [])
  | none =>
    let client := c.service
    let ctx := context.WithTimeout context.Background GRPCServiceTimeout
    let req : SPDKBackingImageDeleteRequest := { Name := name, DiskUuid := diskUUID }
    (errorOf (client.SPDKBackingImageDelete ctx req), [Call.delete ctx req])

/-- Lines 73-95: validate name and diskUUID, then call the backend and decode its response. -/
def SPDKBackingImageGet (GRPCServiceTimeout : Nat) (c : ProxyClient)
    (name diskUUID : String) : Except Error BackingImage × List Call :=
  let input : StringMap := [("name", name), ("diskUUID", diskUUID)]
  match validateProxyMethodParameters input with
  | some err => (Except.error (errors.Wrap err "failed to get backing image"), [])
  | none =>
    let client := c.service
    let ctx := context.WithTimeout context.Background GRPCServiceTimeout
    let req : SPDKBackingImageGetRequest := { Name := name, DiskUuid := diskUUID }
    match client.SPDKBackingImageGet ctx req with
    | Except.error err => (Except.error err, [Call.get ctx req])
    | Except.ok resp => (api.RPCToBackingImage resp, [Call.get ctx req])

/-- Lines 97-107: call the backend; wrap its error, or translate its listing. -/
def SPDKBackingImageList (GRPCServiceTimeout : Nat) (c : ProxyClient) :
    Except Error (List (String × BackingImage)) × List Call :=
  let client := c.service
  let ctx := context.WithTimeout context.Background GRPCServiceTimeout
  match client.SPDKBackingImageList ctx with
  | Except.error err =>
    (Except.error (errors.Wrap err "failed to list backing images"), [Call.list ctx])
  | Except.ok resp => (Except.ok (api.RPCToBackingImageList resp), [Call.list ctx])

/-- Lines 109-117: open the server stream under the caller's context; wrap the error of a
failed opening, or hand the stream over as an `api.BackingImageStream`. -/
def SPDKBackingImageWatch (c : ProxyClient) (ctx : Context) :
    Except Error BackingImageStream × List Call :=
  let client := c.service
  match client.SPDKBackingImageWatch ctx with
  | Except.error err =>
    (Except.error (errors.Wrap err "failed to open backing image update stream"),
      [Call.watch ctx])
  | Except.ok stream => (Except.ok (api.NewBackingImageStream stream), [Call.watch ctx])

/-- The wire request of lines 144-156, built from the arguments and the label slice. -/
def backupCreateRequest (backupName name uuid lvsUUID checksum backupTarget : String)
    (labelSlice : List String) (credential : StringMap) (compressionMethod : String)
    (concurrentLimit : Int) (parameters : StringMap) : SPDKBackingImageBackupCreateRequest :=
  { BackupName := backupName
    Name := name
    Uuid := uuid
    LvsUuid := lvsUUID
    Checksum := checksum
    BackupTarget := backupTarget
    Labels := labelSlice
    Credential := credential
    CompressionMethod := compressionMethod
    ConcurrentLimit := int32 concurrentLimit
    Parameters := parameters }

/-- Lines 119-158: validate the six required strings, flatten the labels, then call the
backend under a fresh context with the service-call timeout and return its error. -/
def SPDKBackingImageBackupCreate (GRPCServiceTimeout : Nat) (c : ProxyClient) (ctx : Context)
    (backupName name uuid lvsUUID checksum backupTarget : String)
    (labels credential : StringMap) (compressionMethod : String) (concurrentLimit : Int)
    (parameters : StringMap) : Option Error × List Call :=
  let input : StringMap :=
    [("backup_name", backupName), ("name", name), ("uuid", uuid), ("lvsUUID", lvsUUID),
      ("checksum", checksum), ("backup_target", backupTarget)]
  match validateProxyMethodParameters input with
  | some err => (some (errors.Wrap err "failed to get backing image"), [])
  | none =>
    let labelSlice := labelSlice labels
    let client := c.service
    -- line 141 assigns the parameter `ctx` anew; the value the caller passed is dropped
    let ctx := context.WithTimeout context.Background GRPCServiceTimeout
    let req := backupCreateRequest backupName name uuid lvsUUID checksum backupTarget
      labelSlice credential compressionMethod concurrentLimit parameters
    (errorOf (client.SPDKBackingImageBackupCreate ctx req), [Call.backupCreate ctx req])

/-- The label sequence as the spec words it: one `"key=value"` string per entry of the
mapping, in ascending key order. -/
def specLabelSequence (labels : StringMap) : List String :=
  (labels.insertionSort (fun a b => a.1 ≤ b.1)).map (fun kv => sprintfKV kv.1 kv.2)

/-! ## Test doubles -/

/-- A backend that echoes the fields of a creation request in its response, with the given
`state`, answers `Get` with the nil message, lists nothing, opens a stream,
and acknowledges deletions and backups. -/
def echoService (state : String) : ProxyEngineServiceClient :=
  { SPDKBackingImageCreate := fun _ req => Except.ok (some
      { Name := req.Name
        BackingImageUuid := req.BackingImageUuid
        DiskUuid := req.DiskUuid
        Size := req.Size
        Checksum := req.Checksum
        FromAddress := req.FromAddress
        SrcLvsUuid := req.SrcLvsUuid
        State := state })
    SPDKBackingImageDelete := fun _ _ => Except.ok ()
    SPDKBackingImageGet := fun _ _ => Except.ok none
    SPDKBackingImageList := fun _ => Except.ok []
    SPDKBackingImageWatch := fun _ => Except.ok { id := 0 }
    SPDKBackingImageBackupCreate := fun _ _ => Except.ok () }

/-- A backend that fails every call with the error `e`. -/
def failingService (e : Error) : ProxyEngineServiceClient :=
  { SPDKBackingImageCreate := fun _ _ => Except.error e
    SPDKBackingImageDelete := fun _ _ => Except.error e
    SPDKBackingImageGet := fun _ _ => Except.error e
    SPDKBackingImageList := fun _ => Except.error e
    SPDKBackingImageWatch := fun _ => Except.error e
    SPDKBackingImageBackupCreate := fun _ _ => Except.error e }

/-! ## The parameter validator -/

theorem validate_none_of_all_nonempty (input : StringMap)
    (h : ∀ kv ∈ input, kv.2 ≠ "") : validateProxyMethodParameters input = none := by
  have hf : input.filter (fun kv => decide (kv.2 = "")) = [] := by
    rw [List.filter_eq_nil_iff]
    intro kv hkv
    simpa using h kv hkv
  simp [validateProxyMethodParameters, hf]

theorem validate_some_of_empty (input : StringMap) (k : String) (h : (k, "") ∈ input) :
    ∃ missing, k ∈ missing ∧
      validateProxyMethodParameters input = some (Error.parameter missing) := by
  have hk : k ∈ (input.filter (fun kv => decide (kv.2 = ""))).map Prod.fst := by
    rw [List.mem_map]
    exact ⟨(k, ""), by simp [List.mem_filter, h], rfl⟩
  refine ⟨_, hk, ?_⟩
  have hne : (input.filter (fun kv => decide (kv.2 = ""))).map Prod.fst ≠ [] :=
    List.ne_nil_of_mem hk
  simp only [validateProxyMethodParameters]
  rw [if_neg hne]

theorem validate_create_none (name backingImageUUID diskUUID checksum : String)
    (h1 : name ≠ "") (h2 : backingImageUUID ≠ "") (h3 : diskUUID ≠ "") (h4 : checksum ≠ "") :
    validateProxyMethodParameters
      [("name", name), ("backingImageUUID", backingImageUUID), ("checksum", checksum),
        ("diskUUID", diskUUID)] = none := by
  apply validate_none_of_all_nonempty
  intro kv hkv
  simp only [List.mem_cons, List.mem_singleton, List.not_mem_nil, or_false] at hkv
  rcases hkv with h | h | h | h <;> subst h <;> assumption

theorem validate_create_some (name backingImageUUID diskUUID checksum : String)
    (h : name = "" ∨ backingImageUUID = "" ∨ diskUUID = "" ∨ checksum = "") :
    ∃ missing, missing ≠ [] ∧ validateProxyMethodParameters
      [("name", name), ("backingImageUUID", backingImageUUID), ("checksum", checksum),
        ("diskUUID", diskUUID)] = some (Error.parameter missing) := by
  rcases h with h | h | h | h <;> subst h
  · obtain ⟨m, hm, hv⟩ := validate_some_of_empty _ "name" (List.mem_cons_self _ _)
    exact ⟨m, List.ne_nil_of_mem hm, hv⟩
  · obtain ⟨m, hm, hv⟩ := validate_some_of_empty
      [("name", name), ("backingImageUUID", ""), ("checksum", checksum), ("diskUUID", diskUUID)]
      "backingImageUUID" (by simp)
    exact ⟨m, List.ne_nil_of_mem hm, hv⟩
  · obtain ⟨m, hm, hv⟩ := validate_some_of_empty
      [("name", name), ("backingImageUUID", backingImageUUID), ("checksum", checksum),
        ("diskUUID", "")] "diskUUID" (by simp)
    exact ⟨m, List.ne_nil_of_mem hm, hv⟩
  · obtain ⟨m, hm, hv⟩ := validate_some_of_empty
      [("name", name), ("backingImageUUID", backingImageUUID), ("checksum", ""),
        ("diskUUID", diskUUID)] "checksum" (by simp)
    exact ⟨m, List.ne_nil_of_mem hm, hv⟩

theorem validate_pair_none (name diskUUID : String) (h1 : name ≠ "") (h2 : diskUUID ≠ "") :
    validateProxyMethodParameters [("name", name), ("diskUUID", diskUUID)] = none := by
  apply validate_none_of_all_nonempty
  intro kv hkv
  simp only [List.mem_cons, List.mem_singleton, List.not_mem_nil, or_false] at hkv
  rcases hkv with h | h <;> subst h <;> assumption

theorem validate_pair_some (name diskUUID : String) (h : name = "" ∨ diskUUID = "") :
    ∃ missing, missing ≠ [] ∧ validateProxyMethodParameters
      [("name", name), ("diskUUID", diskUUID)] = some (Error.parameter missing) := by
  rcases h with h | h <;> subst h
  · obtain ⟨m, hm, hv⟩ := validate_some_of_empty _ "name" (List.mem_cons_self _ _)
    exact ⟨m, List.ne_nil_of_mem hm, hv⟩
  · obtain ⟨m, hm, hv⟩ := validate_some_of_empty
      [("name", name), ("diskUUID", "")] "diskUUID" (by simp)
    exact ⟨m, List.ne_nil_of_mem hm, hv⟩

theorem validate_backup_none (backupName name uuid lvsUUID checksum backupTarget : String)
    (h1 : backupName ≠ "") (h2 : name ≠ "") (h3 : uuid ≠ "") (h4 : lvsUUID ≠ "")
    (h5 : checksum ≠ "") (h6 : backupTarget ≠ "") :
    validateProxyMethodParameters
      [("backup_name", backupName), ("name", name), ("uuid", uuid), ("lvsUUID", lvsUUID),
        ("checksum", checksum), ("backup_target", backupTarget)] = none := by
  apply validate_none_of_all_nonempty
  intro kv hkv
  simp only [List.mem_cons, List.mem_singleton, List.not_mem_nil, or_false] at hkv
  rcases hkv with h | h | h | h | h | h <;> subst h <;> assumption

theorem validate_backup_some (backupName name uuid lvsUUID checksum backupTarget : String)
    (h : backupName = "" ∨ name = "" ∨ uuid = "" ∨ lvsUUID = "" ∨ checksum = "" ∨
      backupTarget = "") :
    ∃ missing, missing ≠ [] ∧ validateProxyMethodParameters
      [("backup_name", backupName), ("name", name), ("uuid", uuid), ("lvsUUID", lvsUUID),
        ("checksum", checksum), ("backup_target", backupTarget)]
      = some (Error.parameter missing) := by
  have key : ∀ k, (k, "") ∈ [("backup_name", backupName), ("name", name), ("uuid", uuid),
      ("lvsUUID", lvsUUID), ("checksum", checksum), ("backup_target", backupTarget)] →
      ∃ missing, missing ≠ [] ∧ validateProxyMethodParameters
        [("backup_name", backupName), ("name", name), ("uuid", uuid), ("lvsUUID", lvsUUID),
          ("checksum", checksum), ("backup_target", backupTarget)]
        = some (Error.parameter missing) := by
    intro k hk
    obtain ⟨m, hm, hv⟩ := validate_some_of_empty _ k hk
    exact ⟨m, List.ne_nil_of_mem hm, hv⟩
  rcases h with h | h | h | h | h | h <;> subst h
  · exact key "backup_name" (by simp)
  · exact key "name" (by simp)
  · exact key "uuid" (by simp)
  · exact key "lvsUUID" (by simp)
  · exact key "checksum" (by simp)
  · exact key "backup_target" (by simp)

/-! ## Validation before any backend call -/

theorem create_fails_of_empty_field (T : Nat) (c : ProxyClient)
    (name backingImageUUID diskUUID checksum fromAddress srcLvsUUID : String) (size : Nat)
    (h : name = "" ∨ backingImageUUID = "" ∨ diskUUID = "" ∨ checksum = "") :
    ∃ missing, missing ≠ [] ∧
      SPDKBackingImageCreate T c name backingImageUUID diskUUID checksum fromAddress
        srcLvsUUID size =
      (Except.error (errors.Wrap (Error.parameter missing) "failed to create backing image"),
        []) := by
  obtain ⟨m, hm, hv⟩ := validate_create_some name backingImageUUID diskUUID checksum h
  exact ⟨m, hm, by simp only [SPDKBackingImageCreate, hv]⟩

/-- C1: when a required field is the empty string (Create: name, backingImageUUID, diskUUID,
checksum; Delete and Get: name, diskUUID), each of Create, Delete and Get returns the
validator's error, naming at least one field and wrapped with the operation's context, and the
list of backend invocations is empty. -/
theorem C1_empty_required_field_fails_without_backend_call (T : Nat) (c : ProxyClient)
    (name backingImageUUID diskUUID checksum fromAddress srcLvsUUID : String) (size : Nat) :
    ((name = "" ∨ backingImageUUID = "" ∨ diskUUID = "" ∨ checksum = "") →
      ∃ missing, missing ≠ [] ∧
        SPDKBackingImageCreate T c name backingImageUUID diskUUID checksum fromAddress
          srcLvsUUID size =
        (Except.error (errors.Wrap (Error.parameter missing) "failed to create backing image"),
          [])) ∧
    ((name = "" ∨ diskUUID = "") →
      (∃ missing, missing ≠ [] ∧
        SPDKBackingImageDelete T c name diskUUID =
        (some (errors.Wrap (Error.parameter missing) "failed to delete backing image"), [])) ∧
      (∃ missing, missing ≠ [] ∧
        SPDKBackingImageGet T c name diskUUID =
        (Except.error (errors.Wrap (Error.parameter missing) "failed to get backing image"),
          []))) := by
  refine ⟨fun h => ?_, fun h => ⟨?_, ?_⟩⟩
  · exact create_fails_of_empty_field T c name backingImageUUID diskUUID checksum fromAddress
      srcLvsUUID size h
  · obtain ⟨m, hm, hv⟩ := validate_pair_some name diskUUID h
    exact ⟨m, hm, by simp only [SPDKBackingImageDelete, hv]⟩
  · obtain ⟨m, hm, hv⟩ := validate_pair_some name diskUUID h
    exact ⟨m, hm, by simp only [SPDKBackingImageGet, hv]⟩

theorem C1_witness :
    ∃ missing, missing ≠ [] ∧
      SPDKBackingImageCreate 30 { service := echoService "ready" } "bi" "" "disk" "sum" "" "" 8 =
      (Except.error (errors.Wrap (Error.parameter missing) "failed to create backing image"),
        []) :=
  (C1_empty_required_field_fails_without_backend_call 30 { service := echoService "ready" }
    "bi" "" "disk" "sum" "" "" 8).1 (Or.inr (Or.inl rfl))

/-- C2 fails as stated: with an empty name and size 0, Create returns the wrapped validation
error, not the size error. -/
theorem C2_counterexample :
    SPDKBackingImageCreate 30 { service := echoService "ready" } "" "uuid" "disk" "sum" "" "" 0 =
      (Except.error (errors.Wrap (Error.parameter ["name"]) "failed to create backing image"),
        []) ∧
    (SPDKBackingImageCreate 30 { service := echoService "ready" } "" "uuid" "disk" "sum" "" ""
        0).1 ≠
      Except.error (Error.errorf "failed to create backing image, size should not be zero") := by
  have h : SPDKBackingImageCreate 30 { service := echoService "ready" } "" "uuid" "disk" "sum" ""
      "" 0 =
      (Except.error (errors.Wrap (Error.parameter ["name"]) "failed to create backing image"),
        []) := by
    simp [SPDKBackingImageCreate, validateProxyMethodParameters]
  refine ⟨h, ?_⟩
  rw [h]
  simp [errors.Wrap]

/-- C2, amended: with size 0 Create makes no backend call and returns an error; the error is
the size error when name, backingImageUUID, diskUUID and checksum are all non-empty, and the
wrapped validation error when one of them is empty. -/
theorem C2_zero_size_fails_without_backend_call (T : Nat) (c : ProxyClient)
    (name backingImageUUID diskUUID checksum fromAddress srcLvsUUID : String) :
    (SPDKBackingImageCreate T c name backingImageUUID diskUUID checksum fromAddress srcLvsUUID
        0).2 = [] ∧
    ((name ≠ "" ∧ backingImageUUID ≠ "" ∧ diskUUID ≠ "" ∧ checksum ≠ "") →
      (SPDKBackingImageCreate T c name backingImageUUID diskUUID checksum fromAddress
        srcLvsUUID 0).1 =
        Except.error
          (Error.errorf "failed to create backing image, size should not be zero")) ∧
    ((name = "" ∨ backingImageUUID = "" ∨ diskUUID = "" ∨ checksum = "") →
      ∃ missing, missing ≠ [] ∧
        (SPDKBackingImageCreate T c name backingImageUUID diskUUID checksum fromAddress
          srcLvsUUID 0).1 =
        Except.error
          (errors.Wrap (Error.parameter missing) "failed to create backing image")) := by
  have hok : (name ≠ "" ∧ backingImageUUID ≠ "" ∧ diskUUID ≠ "" ∧ checksum ≠ "") →
      SPDKBackingImageCreate T c name backingImageUUID diskUUID checksum fromAddress
        srcLvsUUID 0 =
      (Except.error (Error.errorf "failed to create backing image, size should not be zero"),
        []) := by
    rintro ⟨h1, h2, h3, h4⟩
    simp only [SPDKBackingImageCreate,
      validate_create_none name backingImageUUID diskUUID checksum h1 h2 h3 h4, if_true]
  have hbad : (name = "" ∨ backingImageUUID = "" ∨ diskUUID = "" ∨ checksum = "") →
      ∃ missing, missing ≠ [] ∧
        SPDKBackingImageCreate T c name backingImageUUID diskUUID checksum fromAddress
          srcLvsUUID 0 =
        (Except.error (errors.Wrap (Error.parameter missing) "failed to create backing image"),
          []) := fun h =>
    (create_fails_of_empty_field T c name backingImageUUID diskUUID checksum fromAddress
      srcLvsUUID 0 h)
  refine ⟨?_, fun h => by rw [hok h], fun h => ?_⟩
  · by_cases h : name ≠ "" ∧ backingImageUUID ≠ "" ∧ diskUUID ≠ "" ∧ checksum ≠ ""
    · rw [hok h]
    · have h2 : name = "" ∨ backingImageUUID = "" ∨ diskUUID = "" ∨ checksum = "" := by
        by_contra hc
        push_neg at hc
        exact h hc
      obtain ⟨m, _, hm⟩ := hbad h2
      rw [hm]
  · obtain ⟨m, hne, hm⟩ := hbad h
    exact ⟨m, hne, by rw [hm]⟩

theorem C2_witness :
    (SPDKBackingImageCreate 30 { service := echoService "ready" } "bi" "uuid" "disk" "sum" "" ""
        0).1 =
      Except.error (Error.errorf "failed to create backing image, size should not be zero") :=
  (C2_zero_size_fails_without_backend_call 30 { service := echoService "ready" }
    "bi" "uuid" "disk" "sum" "" "").2.1 (by decide)

/-! ## Backup creation -/

theorem labelSlice_foldl (labels : StringMap) (acc : List String) :
    labels.foldl (fun acc kv => acc ++ [sprintfKV kv.1 kv.2]) acc =
      acc ++ labels.map (fun kv => sprintfKV kv.1 kv.2) := by
  induction labels generalizing acc with
  | nil => simp
  | cons kv rest ih => simp [List.foldl_cons, ih]

theorem labelSlice_eq_map (labels : StringMap) :
    labelSlice labels = labels.map (fun kv => sprintfKV kv.1 kv.2) := by
  simp [labelSlice, labelSlice_foldl]

theorem backupCreate_of_valid (T : Nat) (c : ProxyClient) (ctx : Context)
    (backupName name uuid lvsUUID checksum backupTarget : String)
    (labels credential : StringMap) (compressionMethod : String) (concurrentLimit : Int)
    (parameters : StringMap)
    (h1 : backupName ≠ "") (h2 : name ≠ "") (h3 : uuid ≠ "") (h4 : lvsUUID ≠ "")
    (h5 : checksum ≠ "") (h6 : backupTarget ≠ "") :
    SPDKBackingImageBackupCreate T c ctx backupName name uuid lvsUUID checksum backupTarget
        labels credential compressionMethod concurrentLimit parameters =
      (errorOf (c.service.SPDKBackingImageBackupCreate
          (context.WithTimeout context.Background T)
          (backupCreateRequest backupName name uuid lvsUUID checksum backupTarget
            (labelSlice labels) credential compressionMethod concurrentLimit parameters)),
        [Call.backupCreate (context.WithTimeout context.Background T)
          (backupCreateRequest backupName name uuid lvsUUID checksum backupTarget
            (labelSlice labels) credential compressionMethod concurrentLimit parameters)]) := by
  simp only [SPDKBackingImageBackupCreate,
    validate_backup_none backupName name uuid lvsUUID checksum backupTarget h1 h2 h3 h4 h5 h6]

/-- C3: when one of backupName, name, uuid, lvsUUID, checksum, backupTarget is the empty
string, BackupCreate returns the validator's error, wrapped, and invokes the backend zero
times; when all six are non-empty the backend is invoked exactly once and its answer is the
result, whatever labels, credential, compressionMethod, concurrentLimit and parameters are,
so empty values of those five never cause a validation failure. -/
theorem C3_backup_create_required_fields (T : Nat) (c : ProxyClient) (ctx : Context)
    (backupName name uuid lvsUUID checksum backupTarget : String)
    (labels credential : StringMap) (compressionMethod : String) (concurrentLimit : Int)
    (parameters : StringMap) :
    ((backupName = "" ∨ name = "" ∨ uuid = "" ∨ lvsUUID = "" ∨ checksum = "" ∨
        backupTarget = "") →
      ∃ missing, missing ≠ [] ∧
        SPDKBackingImageBackupCreate T c ctx backupName name uuid lvsUUID checksum
          backupTarget labels credential compressionMethod concurrentLimit parameters =
        (some (errors.Wrap (Error.parameter missing) "failed to get backing image"), [])) ∧
    ((backupName ≠ "" ∧ name ≠ "" ∧ uuid ≠ "" ∧ lvsUUID ≠ "" ∧ checksum ≠ "" ∧
        backupTarget ≠ "") →
      (∃ req,
        SPDKBackingImageBackupCreate T c ctx backupName name uuid lvsUUID checksum
          backupTarget labels credential compressionMethod concurrentLimit parameters =
        (errorOf (c.service.SPDKBackingImageBackupCreate
            (context.WithTimeout context.Background T) req),
          [Call.backupCreate (context.WithTimeout context.Background T) req])) ∧
      (∃ req,
        SPDKBackingImageBackupCreate T c ctx backupName name uuid lvsUUID checksum
          backupTarget [] [] "" 0 [] =
        (errorOf (c.service.SPDKBackingImageBackupCreate
            (context.WithTimeout context.Background T) req),
          [Call.backupCreate (context.WithTimeout context.Background T) req]))) := by
  refine ⟨fun h => ?_, ?_⟩
  · obtain ⟨m, hm, hv⟩ :=
      validate_backup_some backupName name uuid lvsUUID checksum backupTarget h
    exact ⟨m, hm, by simp only [SPDKBackingImageBackupCreate, hv]⟩
  · rintro ⟨h1, h2, h3, h4, h5, h6⟩
    exact ⟨⟨_, backupCreate_of_valid T c ctx backupName name uuid lvsUUID checksum backupTarget
        labels credential compressionMethod concurrentLimit parameters h1 h2 h3 h4 h5 h6⟩,
      ⟨_, backupCreate_of_valid T c ctx backupName name uuid lvsUUID checksum backupTarget
        [] [] "" 0 [] h1 h2 h3 h4 h5 h6⟩⟩

theorem C3_witness :
    ∃ missing, missing ≠ [] ∧
      SPDKBackingImageBackupCreate 30 { service := echoService "ready" } context.Background
        "bk" "bi" "" "lvs" "sum" "s3://bucket" [] [] "lz4" 1 [] =
      (some (errors.Wrap (Error.parameter missing) "failed to get backing image"), []) :=
  (C3_backup_create_required_fields 30 { service := echoService "ready" } context.Background
    "bk" "bi" "" "lvs" "sum" "s3://bucket" [] [] "lz4" 1 []).1 (Or.inr (Or.inr (Or.inl rfl)))

/-- C4 fails as stated: when the loop visits the mapping that sends a to 1 and b to 2 in the
order b, a, the wire label sequence is b=2, a=1, which is not the ascending-key list a=1, b=2
and differs from what the visiting order a, b gives for the same mapping. -/
theorem C4_counterexample :
    (SPDKBackingImageBackupCreate 30 { service := echoService "ready" } context.Background
        "bk" "bi" "uuid" "lvs" "sum" "s3://bucket" [("b", "2"), ("a", "1")] [] "lz4" 1 []).2 =
      [Call.backupCreate (context.WithTimeout context.Background 30)
        { BackupName := "bk", Name := "bi", Uuid := "uuid", LvsUuid := "lvs", Checksum := "sum",
          BackupTarget := "s3://bucket", Labels := ["b=2", "a=1"], Credential := [],
          CompressionMethod := "lz4", ConcurrentLimit := 1, Parameters := [] }] ∧
    (SPDKBackingImageBackupCreate 30 { service := echoService "ready" } context.Background
        "bk" "bi" "uuid" "lvs" "sum" "s3://bucket" [("a", "1"), ("b", "2")] [] "lz4" 1 []).2 =
      [Call.backupCreate (context.WithTimeout context.Background 30)
        { BackupName := "bk", Name := "bi", Uuid := "uuid", LvsUuid := "lvs", Checksum := "sum",
          BackupTarget := "s3://bucket", Labels := ["a=1", "b=2"], Credential := [],
          CompressionMethod := "lz4", ConcurrentLimit := 1, Parameters := [] }] ∧
    List.Perm [("b", "2"), ("a", "1")] [("a", "1"), ("b", "2")] ∧
    specLabelSequence [("b", "2"), ("a", "1")] = ["a=1", "b=2"] ∧
    ["b=2", "a=1"] ≠ ["a=1", "b=2"] := by
  have hba : ¬ ("b" ≤ "a") := by
    rw [String.le_iff_toList_le]
    decide
  have hspec : specLabelSequence [("b", "2"), ("a", "1")] = ["a=1", "b=2"] := by
    simp only [specLabelSequence, List.insertionSort, List.orderedInsert, hba, if_false,
      List.map_cons, List.map_nil, sprintfKV]
    decide
  refine ⟨?_, ?_, List.Perm.swap _ _ _, hspec, by decide⟩
  · rw [backupCreate_of_valid _ _ _ _ _ _ _ _ _ _ _ _ _ _ (by decide) (by decide) (by decide)
      (by decide) (by decide) (by decide)]
    decide
  · rw [backupCreate_of_valid _ _ _ _ _ _ _ _ _ _ _ _ _ _ (by decide) (by decide) (by decide)
      (by decide) (by decide) (by decide)]
    decide

theorem perm_pair_cases {α : Type} (a b : α) (l : List α) (h : l.Perm [a, b]) :
    l = [a, b] ∨ l = [b, a] := by
  have hlen : l.length = 2 := by simpa using h.length_eq
  match l, hlen with
  | [x, y], _ =>
    have hx : x = a ∨ x = b := by simpa using h.subset (List.mem_cons_self x [y])
    have hy : y = a ∨ y = b := by
      simpa using h.subset (List.mem_cons_of_mem x (List.mem_cons_self y []))
    have ha : a = x ∨ a = y := by simpa using h.symm.subset (List.mem_cons_self a [b])
    have hb : b = x ∨ b = y := by
      simpa using h.symm.subset (List.mem_cons_of_mem a (List.mem_cons_self b []))
    rcases hx with hx | hx <;> rcases hy with hy | hy
    · subst hx; subst hy
      rcases hb with hb | hb <;> subst hb <;> exact Or.inl rfl
    · subst hx; subst hy; exact Or.inl rfl
    · subst hx; subst hy; exact Or.inr rfl
    · subst hx; subst hy
      rcases ha with ha | ha <;> subst ha <;> exact Or.inl rfl

/-- C4, amended: for valid required fields the wire request of BackupCreate carries exactly
one string key=value per entry of the labels mapping, in the order in which the loop visits
the entries, an order the language leaves unspecified.  The sequence is therefore a
permutation of the ascending-key list, and for the mapping a to 1, b to 2 it is either
a=1, b=2 or b=2, a=1. -/
theorem C4_labels_follow_visiting_order (T : Nat) (c : ProxyClient) (ctx : Context)
    (backupName name uuid lvsUUID checksum backupTarget : String)
    (labels credential : StringMap) (compressionMethod : String) (concurrentLimit : Int)
    (parameters : StringMap)
    (h1 : backupName ≠ "") (h2 : name ≠ "") (h3 : uuid ≠ "") (h4 : lvsUUID ≠ "")
    (h5 : checksum ≠ "") (h6 : backupTarget ≠ "") :
    ∃ req,
      SPDKBackingImageBackupCreate T c ctx backupName name uuid lvsUUID checksum backupTarget
          labels credential compressionMethod concurrentLimit parameters =
        (errorOf (c.service.SPDKBackingImageBackupCreate
            (context.WithTimeout context.Background T) req),
          [Call.backupCreate (context.WithTimeout context.Background T) req]) ∧
      req.Labels = labels.map (fun kv => sprintfKV kv.1 kv.2) ∧
      req.Labels.length = labels.length ∧
      List.Perm req.Labels (specLabelSequence labels) ∧
      (List.Perm labels [("a", "1"), ("b", "2")] →
        req.Labels = ["a=1", "b=2"] ∨ req.Labels = ["b=2", "a=1"]) := by
  refine ⟨_, backupCreate_of_valid T c ctx backupName name uuid lvsUUID checksum backupTarget
    labels credential compressionMethod concurrentLimit parameters h1 h2 h3 h4 h5 h6,
    labelSlice_eq_map labels, ?_, ?_, ?_⟩
  · simp [backupCreateRequest, labelSlice_eq_map]
  · simp only [backupCreateRequest, labelSlice_eq_map, specLabelSequence]
    exact (List.perm_insertionSort _ labels).symm.map _
  · intro hp
    simp only [backupCreateRequest, labelSlice_eq_map]
    rcases perm_pair_cases _ _ _ hp with h | h <;> subst h
    · exact Or.inl (by decide)
    · exact Or.inr (by decide)

theorem C4_witness :
    ∃ req,
      SPDKBackingImageBackupCreate 30 { service := echoService "ready" } context.Background
          "bk" "bi" "uuid" "lvs" "sum" "s3://bucket" [("b", "2"), ("a", "1")] [] "lz4" 1 [] =
        (errorOf ((echoService "ready").SPDKBackingImageBackupCreate
            (context.WithTimeout context.Background 30) req),
          [Call.backupCreate (context.WithTimeout context.Background 30) req]) ∧
      req.Labels = [("b", "2"), ("a", "1")].map (fun kv => sprintfKV kv.1 kv.2) ∧
      req.Labels.length = [("b", "2"), ("a", "1")].length ∧
      List.Perm req.Labels (specLabelSequence [("b", "2"), ("a", "1")]) ∧
      (List.Perm [("b", "2"), ("a", "1")] [("a", "1"), ("b", "2")] →
        req.Labels = ["a=1", "b=2"] ∨ req.Labels = ["b=2", "a=1"]) :=
  C4_labels_follow_visiting_order 30 { service := echoService "ready" } context.Background
    "bk" "bi" "uuid" "lvs" "sum" "s3://bucket" [("b", "2"), ("a", "1")] [] "lz4" 1 []
    (by decide) (by decide) (by decide) (by decide) (by decide) (by decide)

/-! ### The concurrent limit -/

theorem int32_range (n : Int) : -2147483648 ≤ int32 n ∧ int32 n ≤ 2147483647 := by
  unfold int32
  omega

theorem int32_congr (n : Int) : (int32 n - n) % 4294967296 = 0 := by
  unfold int32
  omega

theorem int32_of_in_range (n : Int) (h1 : -2147483648 ≤ n) (h2 : n ≤ 2147483647) :
    int32 n = n := by
  unfold int32
  omega

/-- C5 fails as stated: with valid required fields and concurrentLimit = 2^31, which is
outside the signed 32-bit range, BackupCreate raises no range error: it invokes the backend
once, with the wire field ConcurrentLimit = -2^31, and returns the backend's success. -/
theorem C5_counterexample :
    SPDKBackingImageBackupCreate 30 { service := echoService "ready" } context.Background
        "bk" "bi" "uuid" "lvs" "sum" "s3://bucket" [] [] "lz4" 2147483648 [] =
      (none, [Call.backupCreate (context.WithTimeout context.Background 30)
        { BackupName := "bk", Name := "bi", Uuid := "uuid", LvsUuid := "lvs", Checksum := "sum",
          BackupTarget := "s3://bucket", Labels := [], Credential := [],
          CompressionMethod := "lz4", ConcurrentLimit := -2147483648, Parameters := [] }]) := by
  rw [backupCreate_of_valid _ _ _ _ _ _ _ _ _ _ _ _ _ _ (by decide) (by decide) (by decide)
    (by decide) (by decide) (by decide)]
  decide

/-- C5, amended: for valid required fields BackupCreate makes no range check: for every
concurrentLimit it invokes the backend exactly once and returns the backend's answer.  The
wire field ConcurrentLimit is concurrentLimit narrowed to 32 bits: it lies in the signed
32-bit range, differs from concurrentLimit by a multiple of 2^32, and equals concurrentLimit
exactly when that lies in [-2^31, 2^31-1]. -/
theorem C5_concurrent_limit_is_narrowed (T : Nat) (c : ProxyClient) (ctx : Context)
    (backupName name uuid lvsUUID checksum backupTarget : String)
    (labels credential : StringMap) (compressionMethod : String) (concurrentLimit : Int)
    (parameters : StringMap)
    (h1 : backupName ≠ "") (h2 : name ≠ "") (h3 : uuid ≠ "") (h4 : lvsUUID ≠ "")
    (h5 : checksum ≠ "") (h6 : backupTarget ≠ "") :
    ∃ req,
      SPDKBackingImageBackupCreate T c ctx backupName name uuid lvsUUID checksum backupTarget
          labels credential compressionMethod concurrentLimit parameters =
        (errorOf (c.service.SPDKBackingImageBackupCreate
            (context.WithTimeout context.Background T) req),
          [Call.backupCreate (context.WithTimeout context.Background T) req]) ∧
      req.ConcurrentLimit = int32 concurrentLimit ∧
      (-2147483648 ≤ req.ConcurrentLimit ∧ req.ConcurrentLimit ≤ 2147483647) ∧
      (req.ConcurrentLimit - concurrentLimit) % 4294967296 = 0 ∧
      ((-2147483648 ≤ concurrentLimit ∧ concurrentLimit ≤ 2147483647) →
        req.ConcurrentLimit = concurrentLimit) :=
  ⟨_, backupCreate_of_valid T c ctx backupName name uuid lvsUUID checksum backupTarget
    labels credential compressionMethod concurrentLimit parameters h1 h2 h3 h4 h5 h6,
    rfl, int32_range concurrentLimit, int32_congr concurrentLimit,
    fun h => int32_of_in_range concurrentLimit h.1 h.2⟩

theorem C5_witness :
    ∃ req,
      SPDKBackingImageBackupCreate 30 { service := echoService "ready" } context.Background
          "bk" "bi" "uuid" "lvs" "sum" "s3://bucket" [] [] "lz4" 4294967301 [] =
        (errorOf ((echoService "ready").SPDKBackingImageBackupCreate
            (context.WithTimeout context.Background 30) req),
          [Call.backupCreate (context.WithTimeout context.Background 30) req]) ∧
      req.ConcurrentLimit = int32 4294967301 ∧
      (-2147483648 ≤ req.ConcurrentLimit ∧ req.ConcurrentLimit ≤ 2147483647) ∧
      (req.ConcurrentLimit - 4294967301) % 4294967296 = 0 ∧
      ((-2147483648 ≤ (4294967301 : Int) ∧ (4294967301 : Int) ≤ 2147483647) →
        req.ConcurrentLimit = 4294967301) :=
  C5_concurrent_limit_is_narrowed 30 { service := echoService "ready" } context.Background
    "bk" "bi" "uuid" "lvs" "sum" "s3://bucket" [] [] "lz4" 4294967301 []
    (by decide) (by decide) (by decide) (by decide) (by decide) (by decide)

/-! ### The caller's context -/

/-- C10: BackupCreate does not depend on the context its caller supplies: for any two caller
contexts and the same remaining arguments the result and the list of backend invocations
(validation outcome, wire request and context handed to the backend) are equal, also when one
context is already cancelled; every invocation is made under the background context with the
service-call timeout, which is not cancelled. -/
theorem C10_backup_create_ignores_caller_context (T : Nat) (c : ProxyClient)
    (ctx1 ctx2 : Context) (backupName name uuid lvsUUID checksum backupTarget : String)
    (labels credential : StringMap) (compressionMethod : String) (concurrentLimit : Int)
    (parameters : StringMap) :
    SPDKBackingImageBackupCreate T c ctx1 backupName name uuid lvsUUID checksum backupTarget
        labels credential compressionMethod concurrentLimit parameters =
      SPDKBackingImageBackupCreate T c ctx2 backupName name uuid lvsUUID checksum backupTarget
        labels credential compressionMethod concurrentLimit parameters ∧
    SPDKBackingImageBackupCreate T c { cancelled := true, timeout := none } backupName name
        uuid lvsUUID checksum backupTarget labels credential compressionMethod concurrentLimit
        parameters =
      SPDKBackingImageBackupCreate T c context.Background backupName name uuid lvsUUID checksum
        backupTarget labels credential compressionMethod concurrentLimit parameters ∧
    (∀ call ∈ (SPDKBackingImageBackupCreate T c ctx1 backupName name uuid lvsUUID checksum
        backupTarget labels credential compressionMethod concurrentLimit parameters).2,
      ∃ req, call = Call.backupCreate (context.WithTimeout context.Background T) req) ∧
    context.WithTimeout context.Background T = { cancelled := false, timeout := some T } := by
  refine ⟨rfl, rfl, ?_, rfl⟩
  intro call hcall
  simp only [SPDKBackingImageBackupCreate] at hcall
  cases hv : validateProxyMethodParameters
      [("backup_name", backupName), ("name", name), ("uuid", uuid), ("lvsUUID", lvsUUID),
        ("checksum", checksum), ("backup_target", backupTarget)] with
  | none =>
    rw [hv] at hcall
    simp only [List.mem_singleton] at hcall
    exact ⟨_, hcall⟩
  | some err =>
    rw [hv] at hcall
    simp at hcall

/-! ## Creation: the wire request and the echoed response -/

theorem create_of_valid (T : Nat) (c : ProxyClient)
    (name backingImageUUID diskUUID checksum fromAddress srcLvsUUID : String) (size : Nat)
    (h1 : name ≠ "") (h2 : backingImageUUID ≠ "") (h3 : diskUUID ≠ "") (h4 : checksum ≠ "")
    (h5 : size ≠ 0) :
    SPDKBackingImageCreate T c name backingImageUUID diskUUID checksum fromAddress srcLvsUUID
        size =
      ((match c.service.SPDKBackingImageCreate (context.WithTimeout context.Background T)
          { Name := name, BackingImageUuid := backingImageUUID, DiskUuid := diskUUID,
            Size := size, Checksum := checksum, FromAddress := fromAddress,
            SrcLvsUuid := srcLvsUUID } with
        | Except.error err => Except.error err
        | Except.ok resp => api.RPCToBackingImage resp),
        [Call.create (context.WithTimeout context.Background T)
          { Name := name, BackingImageUuid := backingImageUUID, DiskUuid := diskUUID,
            Size := size, Checksum := checksum, FromAddress := fromAddress,
            SrcLvsUuid := srcLvsUUID }]) := by
  simp only [SPDKBackingImageCreate,
    validate_create_none name backingImageUUID diskUUID checksum h1 h2 h3 h4, if_neg h5]
  cases c.service.SPDKBackingImageCreate (context.WithTimeout context.Background T)
      { Name := name, BackingImageUuid := backingImageUUID, DiskUuid := diskUUID,
        Size := size, Checksum := checksum, FromAddress := fromAddress,
        SrcLvsUuid := srcLvsUUID } <;> rfl

/-- C6: for non-empty name, backingImageUUID, diskUUID, checksum and size other than 0, Create
invokes the backend exactly once, with a wire request whose Name, BackingImageUuid, DiskUuid,
Size, Checksum, FromAddress and SrcLvsUuid are the like-named arguments; against a test double
that echoes the request fields in its response, the BackingImage returned carries those same
seven values. -/
theorem C6_create_round_trip (T : Nat) (c : ProxyClient)
    (name backingImageUUID diskUUID checksum fromAddress srcLvsUUID : String) (size : Nat)
    (state : String)
    (h1 : name ≠ "") (h2 : backingImageUUID ≠ "") (h3 : diskUUID ≠ "") (h4 : checksum ≠ "")
    (h5 : size ≠ 0) :
    (SPDKBackingImageCreate T c name backingImageUUID diskUUID checksum fromAddress srcLvsUUID
        size).2 =
      [Call.create (context.WithTimeout context.Background T)
        { Name := name, BackingImageUuid := backingImageUUID, DiskUuid := diskUUID,
          Size := size, Checksum := checksum, FromAddress := fromAddress,
          SrcLvsUuid := srcLvsUUID }] ∧
    (SPDKBackingImageCreate T { service := echoService state } name backingImageUUID diskUUID
        checksum fromAddress srcLvsUUID size).1 =
      Except.ok
        { name := name, backingImageUUID := backingImageUUID, diskUUID := diskUUID,
          checksum := checksum, size := size, fromAddress := fromAddress,
          srcLvsUUID := srcLvsUUID, state := state } := by
  constructor
  · rw [create_of_valid T c name backingImageUUID diskUUID checksum fromAddress srcLvsUUID size
      h1 h2 h3 h4 h5]
  · rw [create_of_valid T _ name backingImageUUID diskUUID checksum fromAddress srcLvsUUID size
      h1 h2 h3 h4 h5]
    rfl

theorem C6_witness :
    (SPDKBackingImageCreate 30 { service := failingService Error.decode } "bi" "uuid" "disk"
        "sum" "10.0.0.1:8000" "lvs" 4096).2 =
      [Call.create (context.WithTimeout context.Background 30)
        { Name := "bi", BackingImageUuid := "uuid", DiskUuid := "disk", Size := 4096,
          Checksum := "sum", FromAddress := "10.0.0.1:8000", SrcLvsUuid := "lvs" }] ∧
    (SPDKBackingImageCreate 30 { service := echoService "ready" } "bi" "uuid" "disk" "sum"
        "10.0.0.1:8000" "lvs" 4096).1 =
      Except.ok
        { name := "bi", backingImageUUID := "uuid", diskUUID := "disk", checksum := "sum",
          size := 4096, fromAddress := "10.0.0.1:8000", srcLvsUUID := "lvs",
          state := "ready" } :=
  C6_create_round_trip 30 { service := failingService Error.decode } "bi" "uuid" "disk" "sum"
    "10.0.0.1:8000" "lvs" 4096 "ready" (by decide) (by decide) (by decide) (by decide)
    (by decide)

/-! ## Errors reported by the backend -/

/-- C7 fails as stated: when the backend fails a valid Create with the status error
`unavailable`, Create returns that very error, bare: it has no wrapped cause and is not the
error wrapped with any context message. -/
theorem C7_counterexample :
    SPDKBackingImageCreate 30 { service := failingService (Error.status 14 "unavailable") }
        "bi" "uuid" "disk" "sum" "" "" 4096 =
      (Except.error (Error.status 14 "unavailable"),
        [Call.create (context.WithTimeout context.Background 30)
          { Name := "bi", BackingImageUuid := "uuid", DiskUuid := "disk", Size := 4096,
            Checksum := "sum", FromAddress := "", SrcLvsUuid := "" }]) ∧
    Error.Unwrap (Error.status 14 "unavailable") = none ∧
    ¬ ∃ msg, (SPDKBackingImageCreate 30
        { service := failingService (Error.status 14 "unavailable") }
        "bi" "uuid" "disk" "sum" "" "" 4096).1 =
      Except.error (errors.Wrap (Error.status 14 "unavailable") msg) := by
  have h := create_of_valid 30 { service := failingService (Error.status 14 "unavailable") }
    "bi" "uuid" "disk" "sum" "" "" 4096 (by decide) (by decide) (by decide) (by decide)
    (by decide)
  refine ⟨by rw [h]; rfl, rfl, ?_⟩
  rintro ⟨msg, hmsg⟩
  rw [h] at hmsg
  simp [failingService, errors.Wrap] at hmsg

/-- C7, amended: for every error e that the backend reports for a call that passed
validation, the operation invokes the backend once and returns an error, never a success
result: List returns e wrapped with the context `failed to list backing images`, its cause
still e; Create, Delete, Get and BackupCreate return the bare e. -/
theorem C7_backend_error_propagation (T : Nat) (c : ProxyClient) (ctx : Context) (e : Error)
    (name backingImageUUID diskUUID checksum fromAddress srcLvsUUID : String) (size : Nat)
    (backupName uuid lvsUUID backupTarget : String) (labels credential : StringMap)
    (compressionMethod : String) (concurrentLimit : Int) (parameters : StringMap) :
    ((name ≠ "" ∧ backingImageUUID ≠ "" ∧ diskUUID ≠ "" ∧ checksum ≠ "" ∧ size ≠ 0 ∧
        c.service.SPDKBackingImageCreate (context.WithTimeout context.Background T)
          { Name := name, BackingImageUuid := backingImageUUID, DiskUuid := diskUUID,
            Size := size, Checksum := checksum, FromAddress := fromAddress,
            SrcLvsUuid := srcLvsUUID } = Except.error e) →
      SPDKBackingImageCreate T c name backingImageUUID diskUUID checksum fromAddress
          srcLvsUUID size =
        (Except.error e, [Call.create (context.WithTimeout context.Background T)
          { Name := name, BackingImageUuid := backingImageUUID, DiskUuid := diskUUID,
            Size := size, Checksum := checksum, FromAddress := fromAddress,
            SrcLvsUuid := srcLvsUUID }])) ∧
    ((name ≠ "" ∧ diskUUID ≠ "" ∧
        c.service.SPDKBackingImageDelete (context.WithTimeout context.Background T)
          { Name := name, DiskUuid := diskUUID } = Except.error e) →
      SPDKBackingImageDelete T c name diskUUID =
        (some e, [Call.delete (context.WithTimeout context.Background T)
          { Name := name, DiskUuid := diskUUID }])) ∧
    ((name ≠ "" ∧ diskUUID ≠ "" ∧
        c.service.SPDKBackingImageGet (context.WithTimeout context.Background T)
          { Name := name, DiskUuid := diskUUID } = Except.error e) →
      SPDKBackingImageGet T c name diskUUID =
        (Except.error e, [Call.get (context.WithTimeout context.Background T)
          { Name := name, DiskUuid := diskUUID }])) ∧
    (c.service.SPDKBackingImageList (context.WithTimeout context.Background T) =
        Except.error e →
      SPDKBackingImageList T c =
        (Except.error (errors.Wrap e "failed to list backing images"),
          [Call.list (context.WithTimeout context.Background T)]) ∧
      Error.Unwrap (errors.Wrap e "failed to list backing images") = some e) ∧
    ((backupName ≠ "" ∧ name ≠ "" ∧ uuid ≠ "" ∧ lvsUUID ≠ "" ∧ checksum ≠ "" ∧
        backupTarget ≠ "" ∧
        c.service.SPDKBackingImageBackupCreate (context.WithTimeout context.Background T)
          (backupCreateRequest backupName name uuid lvsUUID checksum backupTarget
            (labelSlice labels) credential compressionMethod concurrentLimit parameters) =
          Except.error e) →
      SPDKBackingImageBackupCreate T c ctx backupName name uuid lvsUUID checksum backupTarget
          labels credential compressionMethod concurrentLimit parameters =
        (some e, [Call.backupCreate (context.WithTimeout context.Background T)
          (backupCreateRequest backupName name uuid lvsUUID checksum backupTarget
            (labelSlice labels) credential compressionMethod concurrentLimit parameters)])) := by
  refine ⟨?_, ?_, ?_, ?_, ?_⟩
  · rintro ⟨h1, h2, h3, h4, h5, he⟩
    rw [create_of_valid T c name backingImageUUID diskUUID checksum fromAddress srcLvsUUID size
      h1 h2 h3 h4 h5, he]
  · rintro ⟨h1, h2, he⟩
    simp only [SPDKBackingImageDelete, validate_pair_none name diskUUID h1 h2, he, errorOf]
  · rintro ⟨h1, h2, he⟩
    simp only [SPDKBackingImageGet, validate_pair_none name diskUUID h1 h2, he]
  · intro he
    exact ⟨by simp only [SPDKBackingImageList, he], rfl⟩
  · rintro ⟨h1, h2, h3, h4, h5, h6, he⟩
    rw [backupCreate_of_valid T c ctx backupName name uuid lvsUUID checksum backupTarget
      labels credential compressionMethod concurrentLimit parameters h1 h2 h3 h4 h5 h6, he]
    rfl

theorem C7_witness :
    SPDKBackingImageDelete 30 { service := failingService (Error.status 5 "not found") }
        "bi" "disk" =
      (some (Error.status 5 "not found"),
        [Call.delete (context.WithTimeout context.Background 30)
          { Name := "bi", DiskUuid := "disk" }]) :=
  (C7_backend_error_propagation 30 { service := failingService (Error.status 5 "not found") }
    context.Background (Error.status 5 "not found") "bi" "" "disk" "" "" "" 0 "" "" "" "" [] []
    "" 0 []).2.1 ⟨by decide, by decide, rfl⟩

/-! ## Listing -/

/-- C8: List invokes the backend once and returns an error if and only if that call fails:
a backend failure with cause e gives no collection and e wrapped as a list failure; a backend
success gives the translated collection and no error, and an empty listing gives the empty
collection. -/
theorem C8_list_error_iff_backend_fails (T : Nat) (c : ProxyClient) :
    (∀ e, c.service.SPDKBackingImageList (context.WithTimeout context.Background T) =
        Except.error e →
      SPDKBackingImageList T c =
        (Except.error (errors.Wrap e "failed to list backing images"),
          [Call.list (context.WithTimeout context.Background T)]) ∧
      Error.Unwrap (errors.Wrap e "failed to list backing images") = some e) ∧
    (∀ resp, c.service.SPDKBackingImageList (context.WithTimeout context.Background T) =
        Except.ok resp →
      SPDKBackingImageList T c =
        (Except.ok (api.RPCToBackingImageList resp),
          [Call.list (context.WithTimeout context.Background T)])) ∧
    (c.service.SPDKBackingImageList (context.WithTimeout context.Background T) =
        Except.ok [] →
      SPDKBackingImageList T c =
        (Except.ok [], [Call.list (context.WithTimeout context.Background T)])) ∧
    ((∃ err, (SPDKBackingImageList T c).1 = Except.error err) ↔
      ∃ e, c.service.SPDKBackingImageList (context.WithTimeout context.Background T) =
        Except.error e) := by
  refine ⟨fun e he => ⟨by simp only [SPDKBackingImageList, he], rfl⟩,
    fun resp he => by simp only [SPDKBackingImageList, he],
    fun he => by simp only [SPDKBackingImageList, he, api.RPCToBackingImageList, List.map_nil],
    ?_⟩
  cases he : c.service.SPDKBackingImageList (context.WithTimeout context.Background T) with
  | error e => simp [SPDKBackingImageList, he]
  | ok resp => simp [SPDKBackingImageList, he]

theorem C8_witness :
    SPDKBackingImageList 30 { service := echoService "ready" } =
      (Except.ok [], [Call.list (context.WithTimeout context.Background 30)]) :=
  (C8_list_error_iff_backend_fails 30 { service := echoService "ready" }).2.2.1 rfl

end Longhorn
